import Mathlib

/-!
Shallow embedding of the digital-wallet backend (`src/main.py`).

The relational store is a pair of lists (table `user`, table `transaction`);
each HTTP handler becomes a function from the store (plus its inputs) to an
`Except ApiError` result, returning the response value together with the
store left behind by the request.  Python floats carry only small exact
values here, so balances and amounts are modelled as rationals; timestamps
(`datetime.utcnow`) are modelled as a natural-number clock passed to the
operations that read it.  A raised `HTTPException(404, ...)` becomes
`ApiError.httpException 404 ...`; the storage layer's `IntegrityError` on a
violated UNIQUE constraint (fields declared `unique=True`) becomes
`ApiError.integrityError`; FastAPI's request-validation rejection (the
`Query(le=100)` bound on `limit`) becomes `ApiError.validationError`.
-/

deriving instance DecidableEq for Except

namespace Wallet

/-- Table `user` (`class User(SQLModel, table=True)`): `id` is the generated
primary key; `username`, `email` and `phone_number` carry UNIQUE constraints;
`balance` defaults to 0; both timestamps are set by `default_factory` at
instantiation only (no `onupdate` hook exists). -/
structure User where
  id : Nat
  username : String
  email : String
  phone_number : String
  balance : ℚ
  created_at : Nat
  updated_at : Nat
deriving DecidableEq

/-- Table `transaction` (`class Transaction(SQLModel, table=True)`). -/
structure Transaction where
  id : Nat
  user_id : Nat
  transaction_type : String
  recipient_user_id : Nat
  amount : ℚ
  created_at : Nat
  updated_at : Nat
deriving DecidableEq

/-- The relational store: the rows of the two tables, in insertion order
(SQLite rowid order, which is the order unqualified SELECTs return). -/
structure Store where
  users : List User
  transactions : List Transaction
deriving DecidableEq

/-- Request body of `POST /users/` (`class UserCreate(UserBase)`): the three
identity strings are required; `balance` is inherited from `UserBase` with
default 0. -/
structure UserCreate where
  username : String
  email : String
  phone_number : String
  balance : ℚ := 0
deriving DecidableEq

/-- Response shape `UserPublic`: `UserBase` plus `id` and the timestamps. -/
structure UserPublic where
  id : Nat
  username : String
  email : String
  phone_number : String
  balance : ℚ
  created_at : Nat
  updated_at : Nat
deriving DecidableEq

/-- Request body of `PUT /users/{user_id}` (`class UserUpdate(UserBase)`):
`username` and `phone_number` are redeclared `Optional` with default `None`;
`email` stays required (inherited `email: str`), and `balance` keeps its
inherited default. -/
structure UserUpdate where
  username : Option String := none
  phone_number : Option String := none
  email : String
  balance : ℚ := 0
deriving DecidableEq

/-- Errors a request can surface: a handler-raised `HTTPException`, the
storage layer's `IntegrityError` (propagated uncaught), or FastAPI's
request-validation rejection. -/
inductive ApiError where
  | httpException (status : Nat) (detail : String)
  | integrityError
  | validationError
deriving DecidableEq

/-- Response of `POST /wallet/{user_id}/add-money`. -/
structure AddMoneyResponse where
  user_id : Nat
  amount : ℚ
  new_balance : ℚ
  transaction_type : String
deriving DecidableEq

/-- Response of `GET /wallet/{user_id}/balance`. -/
structure BalanceResponse where
  user_id : Nat
  balance : ℚ
  last_updated : Nat
deriving DecidableEq

/-- Row lookup by primary key: both `session.get(User, user_id)` and
`session.exec(select(User).where(User.id == user_id)).first()` return the
first (by primary-key uniqueness, only) row with that id, or `None`. -/
def findUserById (s : Store) (user_id : Nat) : Option User :=
  s.users.find? (fun v => v.id == user_id)

/-- Projection of a stored row to the `UserPublic` response shape. -/
def toPublic (u : User) : UserPublic :=
  { id := u.id, username := u.username, email := u.email,
    phone_number := u.phone_number, balance := u.balance,
    created_at := u.created_at, updated_at := u.updated_at }

/-- The store after a request: the store the handler committed on success,
the untouched store when the request errored (the failed transaction is
rolled back). -/
def storeAfter {α : Type} (r : Except ApiError (α × Store)) (s : Store) : Store :=
  match r with
  | .ok (_, s') => s'
  | .error _ => s

/-- Writing back the mutated ORM object on commit: the row with the same
primary key is replaced. -/
def setUser (s : Store) (u : User) : Store :=
  { s with users := s.users.map (fun v => if v.id == u.id then u else v) }

/-- SQLite assigns a new rowid one greater than the largest in the table
(rows are never deleted here: no delete endpoint exists). -/
def nextUserId (s : Store) : Nat :=
  (s.users.foldr (fun u m => max u.id m) 0) + 1

/-- The UNIQUE constraints on `username`, `email` and `phone_number` that
`session.commit()` checks when inserting a fresh `User` row. -/
def hasConflict (s : Store) (user : UserCreate) : Bool :=
  s.users.any (fun v =>
    v.username == user.username || v.email == user.email ||
      v.phone_number == user.phone_number)

/-- `POST /users/` (`create_user`): `User.model_validate(user)` copies the
input fields (including `balance`), the insert commit either violates a
UNIQUE constraint (the raw `IntegrityError` propagates) or appends the row
with a generated id and `default_factory` timestamps. -/
def create_user (s : Store) (user : UserCreate) (now : Nat) :
    Except ApiError (User × Store) :=
  if hasConflict s user then
    .error .integrityError
  else
    let db_user : User :=
      { id := nextUserId s, username := user.username, email := user.email,
        phone_number := user.phone_number, balance := user.balance,
        created_at := now, updated_at := now }
    .ok (db_user, { s with users := s.users ++ [db_user] })

/-- `GET /users/` (`read_users`): `limit` is declared `Query(le=100)`, so
FastAPI rejects any request with `limit > 100` before the handler runs (a
422 validation error — the bound validates, it does not clamp).  Otherwise
`select(User).offset(offset).limit(limit)`: SQLite treats a negative OFFSET
as 0 and a negative LIMIT as "no limit". -/
def read_users (s : Store) (offset : Int) (limit : Int) :
    Except ApiError (List UserPublic) :=
  if limit > 100 then
    .error .validationError
  else
    let afterOffset := s.users.drop offset.toNat
    let page := if limit < 0 then afterOffset else afterOffset.take limit.toNat
    .ok (page.map toPublic)

/-- `GET /users/` with both query parameters omitted: the declared defaults
are `offset: int = 0` and `limit: ... = 100`. -/
def read_users_defaults (s : Store) : Except ApiError (List UserPublic) :=
  read_users s 0 100

/-- `GET /users/{user_id}` (`read_user`). -/
def read_user (s : Store) (user_id : Nat) : Except ApiError UserPublic :=
  match findUserById s user_id with
  | none => .error (.httpException 404 "User not found")
  | some user => .ok (toPublic user)

/-- Python's `new or old` on an `Optional[str]`: `None` and `""` are both
falsy, so only a present, non-empty value replaces the old one. -/
def coalesce (new : Option String) (old : String) : String :=
  match new with
  | some v => if v = "" then old else v
  | none => old

/-- Python's `new or old` on a required `str`: only `""` is falsy. -/
def coalesceStr (new old : String) : String :=
  if new = "" then old else new

/-- The UNIQUE checks `session.commit()` performs for `update_user`: the
flush issues an UPDATE only for a column whose value actually changed, and
the new value conflicts only with a different row. -/
def updateConflict (s : Store) (db_user : User)
    (newUsername newEmail : String) : Bool :=
  s.users.any (fun v =>
    v.id != db_user.id &&
      ((newUsername != db_user.username && v.username == newUsername) ||
        (newEmail != db_user.email && v.email == newEmail)))

/-- `PUT /users/{user_id}` (`update_user`): 404 when the row is absent;
otherwise `db_user.username = user.username or db_user.username` and
`db_user.email = user.email or db_user.email` (falsy coalescing), then
commit.  `phone_number` and `balance` from the body are read by nobody. -/
def update_user (s : Store) (user_id : Nat) (user : UserUpdate) :
    Except ApiError (User × Store) :=
  match findUserById s user_id with
  | none => .error (.httpException 404 "User not found")
  | some db_user =>
    let newUsername := coalesce user.username db_user.username
    let newEmail := coalesceStr user.email db_user.email
    if updateConflict s db_user newUsername newEmail then
      .error .integrityError
    else
      let db_user' := { db_user with username := newUsername, email := newEmail }
      .ok (db_user', setUser s db_user')

/-- `GET /wallet/{user_id}/balance` (`get_wallet_balance`). -/
def get_wallet_balance (s : Store) (user_id : Nat) :
    Except ApiError BalanceResponse :=
  match findUserById s user_id with
  | none => .error (.httpException 404 "User not found")
  | some user =>
    .ok { user_id := user.id, balance := user.balance,
          last_updated := user.updated_at }

/-- `POST /wallet/{user_id}/add-money` (`add_money_to_wallet`):
`user.balance += amount`, commit, and echo the credit; `description` is
accepted and discarded, no `Transaction` row is written, and neither
timestamp is touched. -/
def add_money_to_wallet (s : Store) (user_id : Nat) (amount : ℚ)
    (description : String) : Except ApiError (AddMoneyResponse × Store) :=
  match findUserById s user_id with
  | none => .error (.httpException 404 "User not found")
  | some user =>
    let user' := { user with balance := user.balance + amount }
    .ok ({ user_id := user.id, amount := amount, new_balance := user'.balance,
           transaction_type := "CREDIT" }, setUser s user')

/-- One in-flight `add_money_to_wallet` request, split at its two storage
round-trips: `ready` (about to SELECT the row), `readDone snap` (holds the
balance it read; about to commit `snap + amount`), `finished`. -/
inductive AddPhase where
  | ready
  | readDone (snap : ℚ)
  | finished
deriving DecidableEq

/-- One storage round-trip of an in-flight add-money request against the
shared balance: the read takes a snapshot, the write commits
`snapshot + amount` regardless of what the balance is by then (the
handler's read-modify-write has no lock or transaction around the pair). -/
def stepAdd (amount : ℚ) (bal : ℚ) : AddPhase → ℚ × AddPhase
  | .ready => (bal, .readDone bal)
  | .readDone snap => (snap + amount, .finished)
  | .finished => (bal, .finished)

/-- Run a schedule (a list of request indices) of interleaved add-money
requests, each crediting `amount`, against a shared balance: at each tick
the named request performs its next storage round-trip. -/
def runSchedule (amount : ℚ) : List Nat → ℚ → List AddPhase → ℚ × List AddPhase
  | [], bal, phases => (bal, phases)
  | i :: rest, bal, phases =>
    match phases[i]? with
    | none => runSchedule amount rest bal phases
    | some ph =>
      let r := stepAdd amount bal ph
      runSchedule amount rest r.1 (phases.set i r.2)

/-- A concrete one-user store for counterexamples and witnesses: the user
was created at clock time 7 (both timestamps), balance 0. -/
def alice : User :=
  { id := 1, username := "alice", email := "alice@example.com",
    phone_number := "111", balance := 0, created_at := 7, updated_at := 7 }

/-- A store holding just `alice` and no transactions. -/
def demoStore : Store := { users := [alice], transactions := [] }

/-! ### Helper lemmas about lookup, write-back and id generation -/

theorem findUserById_id {s : Store} {uid : Nat} {u : User}
    (h : findUserById s uid = some u) : u.id = uid := by
  have hp := List.find?_some h
  simpa using hp

theorem findUserById_mem {s : Store} {uid : Nat} {u : User}
    (h : findUserById s uid = some u) : u ∈ s.users :=
  List.mem_of_find?_eq_some h

theorem find?_map_id_pres (l : List User) (g : User → User) (q : Nat)
    (hid : ∀ v, (g v).id = v.id) :
    (l.map g).find? (fun v => v.id == q) =
      (l.find? (fun v => v.id == q)).map g := by
  induction l with
  | nil => rfl
  | cons hd tl ih =>
    by_cases h : (hd.id == q) = true
    · have hg : ((g hd).id == q) = true := by rw [hid]; exact h
      simp [List.find?_cons, h, hg]
    · have hg : ((g hd).id == q) = false := by
        rw [hid]; simpa using h
      have hf : (hd.id == q) = false := by simpa using h
      simp [List.find?_cons, hg, hf, ih]

theorem findUserById_setUser (s : Store) (u' : User) (q : Nat) :
    findUserById (setUser s u') q =
      (findUserById s q).map (fun v => if v.id == u'.id then u' else v) := by
  unfold findUserById setUser
  refine find?_map_id_pres s.users _ q (fun v => ?_)
  by_cases h : (v.id == u'.id) = true
  · have : v.id = u'.id := by simpa using h
    simp [h, this]
  · simp [h]

theorem id_le_fold {l : List User} {v : User} (hv : v ∈ l) :
    v.id ≤ l.foldr (fun u m => max u.id m) 0 := by
  induction l with
  | nil => cases hv
  | cons hd tl ih =>
    rcases List.mem_cons.mp hv with h | h
    · subst h; exact Nat.le_max_left _ _
    · exact Nat.le_trans (ih h) (Nat.le_max_right _ _)

theorem id_lt_nextUserId {s : Store} {v : User} (hv : v ∈ s.users) :
    v.id < nextUserId s :=
  Nat.lt_succ_of_le (id_le_fold hv)

theorem find?_append_fresh (l : List User) (u : User)
    (h : ∀ v ∈ l, ¬ (v.id == u.id) = true) :
    (l ++ [u]).find? (fun v => v.id == u.id) = some u := by
  induction l with
  | nil => simp [List.find?_cons]
  | cons hd tl ih =>
    have hhd : (hd.id == u.id) = false := by
      simpa using h hd (List.mem_cons_self hd tl)
    simp [List.find?_cons, hhd, ih (fun v hv => h v (List.mem_cons_of_mem hd hv))]

/-- The exact success result of add-money on a present user. -/
theorem add_money_eq {s : Store} {uid : Nat} {u : User} (a : ℚ) (d : String)
    (h : findUserById s uid = some u) :
    add_money_to_wallet s uid a d =
      .ok ({ user_id := u.id, amount := a, new_balance := u.balance + a,
             transaction_type := "CREDIT" },
           setUser s { u with balance := u.balance + a }) := by
  unfold add_money_to_wallet
  rw [h]

/-- After a successful add-money, the looked-up row carries the new balance
and is otherwise the old row. -/
theorem find_after_add_money {s : Store} {uid : Nat} {u : User} (a : ℚ) (d : String)
    (h : findUserById s uid = some u) :
    findUserById (storeAfter (add_money_to_wallet s uid a d) s) uid =
      some { u with balance := u.balance + a } := by
  rw [add_money_eq a d h]
  unfold storeAfter
  rw [findUserById_setUser, h]
  have hid : u.id = uid := findUserById_id h
  simp [hid]

/-! ### Claim theorems -/

/-- C1: for every existing user `u` and every amount `a` (of any sign), add-money
sets `u`'s stored balance to its old balance plus `a` and returns exactly
`{user_id := u.id, amount := a, new_balance := old + a, transaction_type := "CREDIT"}`. -/
theorem C1_add_money_spec (s : Store) (uid : Nat) (a : ℚ) (d : String) (u : User)
    (h : findUserById s uid = some u) :
    add_money_to_wallet s uid a d =
      .ok ({ user_id := u.id, amount := a, new_balance := u.balance + a,
             transaction_type := "CREDIT" },
           setUser s { u with balance := u.balance + a })
    ∧ findUserById (storeAfter (add_money_to_wallet s uid a d) s) uid =
        some { u with balance := u.balance + a } :=
  ⟨add_money_eq a d h, find_after_add_money a d h⟩

/-- Witness for C1 at the concrete store `demoStore`, amount 50. -/
theorem C1_add_money_spec_witness :
    findUserById demoStore 1 = some alice
    ∧ (add_money_to_wallet demoStore 1 50 "topup" =
        .ok ({ user_id := alice.id, amount := 50, new_balance := alice.balance + 50,
               transaction_type := "CREDIT" },
             setUser demoStore { alice with balance := alice.balance + 50 })
      ∧ findUserById (storeAfter (add_money_to_wallet demoStore 1 50 "topup") demoStore) 1 =
          some { alice with balance := alice.balance + 50 }) :=
  ⟨by decide, C1_add_money_spec demoStore 1 50 "topup" alice (by decide)⟩

/-- C2: add-money inserts no `Transaction` row — the transactions table is
identical before and after, for every store, user id and amount (including
the not-found path). -/
theorem C2_add_money_no_transaction (s : Store) (uid : Nat) (a : ℚ) (d : String) :
    (storeAfter (add_money_to_wallet s uid a d) s).transactions = s.transactions := by
  cases h : findUserById s uid with
  | none => simp [add_money_to_wallet, storeAfter, h]
  | some u => simp [add_money_to_wallet, storeAfter, setUser, h]

/-- C5 counterexample: on a user created at clock time 7, add-money of 50
leaves `last_updated` at 7 — get-balance does not return a `last_updated`
strictly later than the creation time, refuting the claim as stated. -/
theorem C5_timestamp_cex :
    get_wallet_balance (storeAfter (add_money_to_wallet demoStore 1 50 "topup") demoStore) 1 =
      .ok { user_id := 1, balance := 50, last_updated := 7 }
    ∧ alice.created_at = 7 ∧ ¬ (7 > 7) := by
  refine ⟨?_, by decide, by decide⟩
  norm_num [get_wallet_balance, storeAfter, add_money_to_wallet, findUserById,
    demoStore, alice, setUser]

/-- C5 (amended): add-money updates the balance but never touches
`updated_at`; a subsequent get-balance returns the new balance together with
the `updated_at` the user already had before the operation (its creation
time for a never-updated user), not a strictly later one. -/
theorem C5_add_money_timestamp (s : Store) (uid : Nat) (a : ℚ) (d : String) (u : User)
    (h : findUserById s uid = some u) :
    get_wallet_balance (storeAfter (add_money_to_wallet s uid a d) s) uid =
      .ok { user_id := u.id, balance := u.balance + a, last_updated := u.updated_at } := by
  have hf := find_after_add_money a d h
  unfold get_wallet_balance
  rw [hf]

/-- Witness for the amended C5 at `demoStore`. -/
theorem C5_add_money_timestamp_witness :
    findUserById demoStore 1 = some alice
    ∧ get_wallet_balance (storeAfter (add_money_to_wallet demoStore 1 50 "topup") demoStore) 1 =
        .ok { user_id := alice.id, balance := alice.balance + 50,
              last_updated := alice.updated_at } :=
  ⟨by decide, C5_add_money_timestamp demoStore 1 50 "topup" alice (by decide)⟩

/-- C7: for a user id absent from the store, both get-user-by-id and
get-balance fail with the 404 Not-Found error (an `Except.error`, so no
default or zero-valued projection is ever returned). -/
theorem C7_not_found (s : Store) (uid : Nat) (h : findUserById s uid = none) :
    read_user s uid = .error (.httpException 404 "User not found")
    ∧ get_wallet_balance s uid = .error (.httpException 404 "User not found") := by
  constructor
  · unfold read_user; rw [h]
  · unfold get_wallet_balance; rw [h]

/-- Witness for C7: id 2 is absent from `demoStore`. -/
theorem C7_not_found_witness :
    findUserById demoStore 2 = none
    ∧ (read_user demoStore 2 = .error (.httpException 404 "User not found")
      ∧ get_wallet_balance demoStore 2 = .error (.httpException 404 "User not found")) :=
  ⟨by decide, C7_not_found demoStore 2 (by decide)⟩

/-- C3: creating a user whose username, email or phone number is already
taken by an existing row fails with the Conflict-class error (the storage
layer's `IntegrityError` on the violated UNIQUE constraint) and leaves the
store unchanged — no silent duplicate. -/
theorem C3_create_user_conflict (s : Store) (input : UserCreate) (now : Nat)
    (v : User) (hv : v ∈ s.users)
    (hdup : v.username = input.username ∨ v.email = input.email ∨
      v.phone_number = input.phone_number) :
    create_user s input now = .error .integrityError
    ∧ storeAfter (create_user s input now) s = s := by
  have hc : hasConflict s input = true := by
    refine List.any_eq_true.mpr ⟨v, hv, ?_⟩
    rcases hdup with h | h | h <;> simp [h]
  constructor
  · simp [create_user, hc]
  · simp [create_user, hc, storeAfter]

/-- Witness for C3: re-using `alice`'s username on `demoStore`. -/
theorem C3_create_user_conflict_witness :
    alice ∈ demoStore.users
    ∧ (alice.username = "alice" ∨ alice.email = "bob@example.com" ∨
        alice.phone_number = "222")
    ∧ (create_user demoStore
          { username := "alice", email := "bob@example.com", phone_number := "222" } 9 =
        .error .integrityError
      ∧ storeAfter (create_user demoStore
            { username := "alice", email := "bob@example.com", phone_number := "222" } 9)
          demoStore = demoStore) :=
  ⟨by decide, by decide,
    C3_create_user_conflict demoStore
      { username := "alice", email := "bob@example.com", phone_number := "222" } 9 alice
      (by decide) (by decide)⟩

/-- C8: creating a user from a triple whose username, email and phone number
are all fresh succeeds, the created row has the generated id and balance 0,
and get-user-by-id on the new id returns the same three values. -/
theorem C8_create_user_roundtrip (s : Store) (input : UserCreate) (now : Nat)
    (hbal : input.balance = 0)
    (hfresh : ∀ v ∈ s.users, v.username ≠ input.username ∧ v.email ≠ input.email ∧
      v.phone_number ≠ input.phone_number) :
    ∃ nu s', create_user s input now = .ok (nu, s')
      ∧ nu.id = nextUserId s ∧ nu.balance = 0
      ∧ read_user s' nu.id =
          .ok { id := nu.id, username := input.username, email := input.email,
                phone_number := input.phone_number, balance := 0,
                created_at := now, updated_at := now } := by
  have hc : hasConflict s input = false := by
    unfold hasConflict
    rw [List.any_eq_false]
    intro v hv
    obtain ⟨h1, h2, h3⟩ := hfresh v hv
    simp [h1, h2, h3]
  refine ⟨{ id := nextUserId s, username := input.username, email := input.email,
            phone_number := input.phone_number, balance := input.balance,
            created_at := now, updated_at := now },
          { s with users := s.users ++
              [{ id := nextUserId s, username := input.username, email := input.email,
                 phone_number := input.phone_number, balance := input.balance,
                 created_at := now, updated_at := now }] },
          ?_, rfl, hbal, ?_⟩
  · simp [create_user, hc]
  · unfold read_user findUserById
    rw [find?_append_fresh]
    · simp [toPublic, hbal]
    · intro v hv
      have hlt := id_lt_nextUserId (s := s) hv
      simpa using Nat.ne_of_lt hlt

/-- Witness for C8: a fresh triple added to `demoStore`. -/
theorem C8_create_user_roundtrip_witness :
    ({ username := "bob", email := "bob@example.com", phone_number := "222" } :
        UserCreate).balance = 0
    ∧ (∀ v ∈ demoStore.users, v.username ≠ "bob" ∧ v.email ≠ "bob@example.com" ∧
        v.phone_number ≠ "222")
    ∧ (∃ nu s', create_user demoStore
          { username := "bob", email := "bob@example.com", phone_number := "222" } 9 =
            .ok (nu, s')
        ∧ nu.id = nextUserId demoStore ∧ nu.balance = 0
        ∧ read_user s' nu.id =
            .ok { id := nu.id, username := "bob", email := "bob@example.com",
                  phone_number := "222", balance := 0, created_at := 9,
                  updated_at := 9 }) :=
  ⟨by decide, by decide,
    C8_create_user_roundtrip demoStore
      { username := "bob", email := "bob@example.com", phone_number := "222" } 9
      (by decide) (by decide)⟩

/-- C6 counterexample: requesting `limit = 200` does not succeed with a
clamped limit — FastAPI's `Query(le=100)` bound rejects the request with a
validation error before the handler runs. -/
theorem C6_limit_cex : read_users demoStore 0 200 = .error .validationError := by
  norm_num [read_users]

/-- C6 (amended): a requested limit above 100 is rejected with a validation
error (not clamped); for limits between 0 and 100 the operation succeeds
returning at most `limit` (hence at most 100) user projections; the declared
defaults are `offset = 0` and `limit = 100`. -/
theorem C6_read_users_paging (s : Store) (offset lim1 lim2 : Int)
    (h1 : lim1 > 100) (h2 : 0 ≤ lim2) (h3 : lim2 ≤ 100) :
    read_users s offset lim1 = .error .validationError
    ∧ (∃ page, read_users s offset lim2 = .ok page
        ∧ page.length ≤ lim2.toNat ∧ lim2.toNat ≤ 100)
    ∧ read_users_defaults s = .ok ((s.users.take 100).map toPublic) := by
  refine ⟨?_, ?_, ?_⟩
  · simp [read_users, h1]
  · have hle : ¬ lim2 > 100 := by omega
    have hneg : ¬ lim2 < 0 := by omega
    refine ⟨((s.users.drop offset.toNat).take lim2.toNat).map toPublic, ?_, ?_, ?_⟩
    · simp [read_users, hle, hneg]
    · rw [List.length_map, List.length_take]
      exact Nat.min_le_left _ _
    · omega
  · have h100 : ¬ (100 : Int) > 100 := by omega
    have h100' : ¬ (100 : Int) < 0 := by omega
    simp [read_users_defaults, read_users, h100, h100']

/-- Witness for the amended C6 at `demoStore`, requested limits 200 and 7. -/
theorem C6_read_users_paging_witness :
    (200 : Int) > 100 ∧ (0 : Int) ≤ 7 ∧ (7 : Int) ≤ 100
    ∧ (read_users demoStore 0 200 = .error .validationError
      ∧ (∃ page, read_users demoStore 0 7 = .ok page
          ∧ page.length ≤ (7 : Int).toNat ∧ (7 : Int).toNat ≤ 100)
      ∧ read_users_defaults demoStore = .ok ((demoStore.users.take 100).map toPublic)) :=
  ⟨by decide, by decide, by decide,
    C6_read_users_paging demoStore 0 200 7 (by decide) (by decide) (by decide)⟩

/-- On a present user, update-user either aborts with the commit-time
integrity error (store untouched) or succeeds, the row becoming the old row
with falsy-coalesced username and email. -/
theorem update_user_cases (s : Store) (uid : Nat) (u : User) (upd : UserUpdate)
    (hfind : findUserById s uid = some u) :
    (update_user s uid upd = .error .integrityError
      ∧ storeAfter (update_user s uid upd) s = s)
    ∨ findUserById (storeAfter (update_user s uid upd) s) uid =
        some { u with username := coalesce upd.username u.username,
                      email := coalesceStr upd.email u.email } := by
  simp only [update_user, hfind]
  by_cases hcf : updateConflict s u (coalesce upd.username u.username)
      (coalesceStr upd.email u.email) = true
  · left
    simp [hcf, storeAfter]
  · right
    rw [if_neg hcf]
    show findUserById (storeAfter (Except.ok (_, setUser s _)) s) uid = _
    unfold storeAfter
    rw [findUserById_setUser, hfind]
    simp

/-- C4: on a present user, an update whose `username` is omitted (`None`) or
an empty string leaves the stored username unchanged; supplying `username`
as the empty string is indistinguishable from omitting it (the whole
operation result coincides); and an empty-string `email` likewise leaves the
stored email unchanged. -/
theorem C4_update_user_falsy (s : Store) (uid : Nat) (u : User) (upd updE : UserUpdate)
    (hfind : findUserById s uid = some u)
    (hname : upd.username = none ∨ upd.username = some "")
    (hemail : updE.email = "") :
    (findUserById (storeAfter (update_user s uid upd) s) uid).map User.username =
        some u.username
    ∧ update_user s uid { upd with username := some "" } =
        update_user s uid { upd with username := none }
    ∧ (findUserById (storeAfter (update_user s uid updE) s) uid).map User.email =
        some u.email := by
  refine ⟨?_, ?_, ?_⟩
  · have hcoal : coalesce upd.username u.username = u.username := by
      rcases hname with h | h <;> simp [coalesce, h]
    rcases update_user_cases s uid u upd hfind with ⟨_, hst⟩ | hok
    · rw [hst, hfind]; rfl
    · rw [hok]; simp [hcoal]
  · have hcoal : coalesce (some "") = coalesce none := by
      funext old; simp [coalesce]
    simp [update_user, hcoal]
  · have hcoal : coalesceStr updE.email u.email = u.email := by
      simp [coalesceStr, hemail]
    rcases update_user_cases s uid u updE hfind with ⟨_, hst⟩ | hok
    · rw [hst, hfind]; rfl
    · rw [hok]; simp [hcoal]

/-- Witness for C4 on `demoStore`: an update omitting `username`, and an
update with an empty-string `email`. -/
theorem C4_update_user_falsy_witness :
    findUserById demoStore 1 = some alice
    ∧ (({ username := none, email := "fresh@example.com" } : UserUpdate).username = none
        ∨ ({ username := none, email := "fresh@example.com" } : UserUpdate).username = some "")
    ∧ ({ username := some "bob", email := "" } : UserUpdate).email = ""
    ∧ ((findUserById (storeAfter (update_user demoStore 1
            { username := none, email := "fresh@example.com" }) demoStore) 1).map
          User.username = some alice.username
      ∧ update_user demoStore 1
            { username := some "", email := "fresh@example.com" } =
          update_user demoStore 1 { username := none, email := "fresh@example.com" }
      ∧ (findUserById (storeAfter (update_user demoStore 1
            { username := some "bob", email := "" }) demoStore) 1).map
          User.email = some alice.email) :=
  ⟨by decide, Or.inl (by decide), by decide,
    C4_update_user_falsy demoStore 1 alice
      { username := none, email := "fresh@example.com" }
      { username := some "bob", email := "" }
      (by decide) (Or.inl (by decide)) (by decide)⟩

/-- C10: whatever the update input supplies (including a `phone_number`
value, which the shape accepts), update-user never changes any stored row's
id, phone number, balance or timestamps — looked up by any id, those fields
read back unchanged; only username and email can be modified. -/
theorem C10_update_user_frame (s : Store) (uid : Nat) (upd : UserUpdate) (q : Nat) :
    (findUserById (storeAfter (update_user s uid upd) s) q).map
        (fun v => (v.id, v.phone_number, v.balance, v.created_at, v.updated_at)) =
      (findUserById s q).map
        (fun v => (v.id, v.phone_number, v.balance, v.created_at, v.updated_at)) := by
  cases hfind : findUserById s uid with
  | none => simp [update_user, hfind, storeAfter]
  | some db_user =>
    simp only [update_user, hfind]
    by_cases hcf : updateConflict s db_user (coalesce upd.username db_user.username)
        (coalesceStr upd.email db_user.email) = true
    · simp [hcf, storeAfter]
    · rw [if_neg hcf]
      show (findUserById (storeAfter (Except.ok (_, setUser s _)) s) q).map _ = _
      unfold storeAfter
      rw [findUserById_setUser]
      cases hq : findUserById s q with
      | none => rfl
      | some w =>
        simp only [Option.map_some]
        by_cases hw : w.id = db_user.id
        · have hqid : w.id = q := findUserById_id hq
          have huid : db_user.id = uid := findUserById_id hfind
          have hqu : q = uid := by rw [← hqid, hw, huid]
          subst hqu
          rw [hfind] at hq
          obtain rfl : db_user = w := by injection hq
          simp [hw]
        · simp [hw]

/-- `demoStore` after one completed `add-money(1, amount=1)` request. -/
def demoAfterOneCredit : Store :=
  storeAfter (add_money_to_wallet demoStore 1 1 "first") demoStore

/-- `demoStore` after two completed, non-overlapping `add-money(1, amount=1)`
requests. -/
def demoAfterTwoCredits : Store :=
  storeAfter (add_money_to_wallet demoAfterOneCredit 1 1 "second") demoAfterOneCredit

/-- C9 (the code violates the claim): two sequential add-money requests of
amount 1 do reach balance 0 + 2, and the interleaved schedule in which both
requests SELECT the balance before either commits realizes the classic lost
update — the handler's unsynchronized read-modify-write leaves the final
balance at 1, not 0 + 2. -/
theorem C9_lost_update :
    (findUserById demoAfterTwoCredits 1).map User.balance = some 2
    ∧ runSchedule 1 [0, 0, 1, 1] 0 [.ready, .ready] = (2, [.finished, .finished])
    ∧ runSchedule 1 [0, 1, 0, 1] 0 [.ready, .ready] = (1, [.finished, .finished])
    ∧ (1 : ℚ) ≠ 0 + 2 := by
  refine ⟨?_, ?_, ?_, by norm_num⟩
  · norm_num [demoAfterTwoCredits, demoAfterOneCredit, storeAfter, add_money_to_wallet,
      findUserById, demoStore, alice, setUser]
  · norm_num [runSchedule, stepAdd]
  · norm_num [runSchedule, stepAdd]

end Wallet
